import Mathlib

/-!
Shallow embedding of `src/embassy-executor/src/arch/cortex_m.rs`:
the cortex-m architecture layer of the embassy executor (thread-mode
executor and interrupt-mode executor), together with theorems checking
the natural-language specification against it.

The generic scheduler core (`raw::Executor`) is an excluded external
collaborator per the spec; it is modelled abstractly (see `RawExecutor`).
Everything else is translated from the Rust source.
-/

namespace EmbassyCortexM

/-- Rust `core::sync::atomic::Ordering` values, as annotated at each atomic
site in the source. They carry no sequential semantics in this embedding;
they record which ordering the source requests. -/
inductive MemOrdering
  | relaxed
  | acquire
  | release
  | acqRel
  | seqCst
deriving DecidableEq

/-- Whether an ordering includes release semantics on the store side. -/
def MemOrdering.hasRelease : MemOrdering → Bool
  | .release => true
  | .acqRel => true
  | .seqCst => true
  | _ => false

/-- Processor instructions executed directly by this layer. -/
inductive Instr
  | sev
deriving DecidableEq

/-- `struct ThreadPender;` (source line 16): a unit struct, carries no state. -/
structure ThreadPender
deriving DecidableEq

/-- `ThreadPender::pend` (source lines 19-21): executes the single global
signal-event instruction `asm!("sev")`. No return value, no failure mode;
the result type is the list of instructions executed. -/
def ThreadPender.pend (_ : ThreadPender) : List Instr := [.sev]

/-- `struct InterruptPender(u16)` (source line 93): carries one interrupt-line
number (the `u16` payload, modelled as `Nat`; it is only ever compared for
identity, never computed with). -/
structure InterruptPender where
  number : Nat
deriving DecidableEq

/-- Operations on the interrupt controller (NVIC) performed by this layer. -/
inductive NvicOp
  | stirWrite (n : Nat)
  | isprSet (n : Nat)
  | unmask (n : Nat)
deriving DecidableEq

/-- The interrupt line whose pending bit an NVIC operation software-sets,
if any (`stirWrite n` and `isprSet n` both pend line `n`; `unmask` pends
nothing). -/
def NvicOp.pendedLine : NvicOp → Option Nat
  | .stirWrite n => some n
  | .isprSet n => some n
  | .unmask _ => none

/-- `InterruptPender::pend` (source lines 96-106): on armv7+ it writes the
pender's number to the STIR register via `nvic.request(self)`; on armv6m it
sets that number's bit in the ISPR via `NVIC::pend(self)`. The `armv6m`
flag models the compile-time `cfg` choice; both branches software-set the
pending bit of exactly the carried line. -/
def InterruptPender.pend (armv6m : Bool) (p : InterruptPender) : List NvicOp :=
  if armv6m then [.isprSet p.number] else [.stirWrite p.number]

/-- `enum PenderInner` from `crate::raw`: either the thread-mode (Broadcast)
pender or an interrupt-mode (Targeted) pender. -/
inductive PenderInner
  | thread (t : ThreadPender)
  | interrupt (p : InterruptPender)
deriving DecidableEq

/-- `struct Pender(PenderInner)` from `crate::raw`. -/
structure Pender where
  inner : PenderInner
deriving DecidableEq

/-- Modelled from the spec: the generic scheduler core (`raw::Executor`) is an
excluded external collaborator, exposed only as `Core::new(wake_primitive)`,
`Core.poll()` (one non-blocking poll pass) and `Core.submission_handle()`.
We record the wake primitive fixed at construction and an abstract count of
completed poll passes; the rest of the core (task storage, ready queue) is
opaque and out of scope. -/
structure RawExecutor where
  pender : Pender
  polls : Nat
deriving DecidableEq

/-- Modelled from the spec: `Core::new(wake_primitive) -> Core`. -/
def RawExecutor.new (p : Pender) : RawExecutor := ⟨p, 0⟩

/-- Modelled from the spec: `Core.poll()` runs one non-blocking poll pass;
abstractly, it increments the pass counter and touches nothing else. -/
def RawExecutor.poll (e : RawExecutor) : RawExecutor := { e with polls := e.polls + 1 }

/-- A `Spawner`: a task-submission handle scoped to one executor, identified
here by the executor's (immutable) wake primitive. -/
structure Spawner where
  target : Pender
deriving DecidableEq

/-- A `SendSpawner`: the cross-context task-submission handle. -/
structure SendSpawner where
  target : Pender
deriving DecidableEq

/-- Modelled from the spec: `Core.submission_handle()`, i.e.
`raw::Executor::spawner()`. -/
def RawExecutor.spawner (e : RawExecutor) : Spawner := ⟨e.pender⟩

/-- `Spawner::make_send`: conversion to the cross-context handle. -/
def Spawner.make_send (s : Spawner) : SendSpawner := ⟨s.target⟩

/-! ## Thread-mode executor -/

/-- `struct Executor` (source lines 34-37): owns one scheduler-core instance.
(The `PhantomData<*mut ()>` not-send marker has no runtime content.) -/
structure Executor where
  inner : RawExecutor
deriving DecidableEq

/-- `Executor::new` (source lines 41-46): constructs the core bound to the
broadcast (thread) pender. -/
def Executor.new : Executor := ⟨RawExecutor.new ⟨.thread ⟨⟩⟩⟩

/-- The two mechanisms a cortex-m thread-mode executor could use for its
low-power wait: the ARM `wfe` instruction, or a call to the Nordic
SoftDevice function `sd_app_evt_wait`. -/
inductive WaitMechanism
  | wfe
  | softdeviceWait
deriving DecidableEq

/-- The wait operation in the body of `Executor::run`'s loop. The source
(line 72) calls `sd_app_evt_wait()` (imported from `nrf_softdevice_s132`,
line 10), not the `wfe` instruction that the struct's doc comment describes. -/
def Executor.waitMechanism : WaitMechanism := .softdeviceWait

/-- Observable events of `Executor::run`. -/
inductive RunEvent
  | callInit (s : Spawner)
  | poll
  | waitCall (m : WaitMechanism)
deriving DecidableEq

/-- One iteration of the loop in `Executor::run` (source lines 69-74):
`self.inner.poll()` then `sd_app_evt_wait()`. -/
def Executor.loopBody : List RunEvent := [.poll, .waitCall Executor.waitMechanism]

/-- Trace of `Executor::run` (source lines 66-75) after `n` loop iterations:
`init(self.inner.spawner())` runs once, then the unbounded loop. The loop
never terminates and `run` never returns; the embedding renders this by
indexing the trace with a fuel `n`: the trace is defined for every `n` and
each step strictly extends it, with no terminating event. -/
def Executor.runTrace (ex : Executor) : Nat → List RunEvent
  | 0 => [.callInit ex.inner.spawner]
  | n + 1 => ex.runTrace n ++ Executor.loopBody

/-! ## Interrupt-mode executor -/

/-- `AtomicBool::compare_exchange(expected, desired, _, _)` sequential
semantics: given the current value, returns the new stored value together
with `Ok(old)` when the exchange succeeded and `Err(old)` (store unchanged)
when it failed. -/
def compareExchange (cur expected desired : Bool) : Bool × Except Bool Bool :=
  if cur = expected then (desired, .ok cur) else (cur, .error cur)

/-- Success ordering of the `compare_exchange` in `InterruptExecutor::start`
(source line 189): `Ordering::Acquire`. -/
def start_cas_success_ordering : MemOrdering := .acquire

/-- Failure ordering of the `compare_exchange` in `InterruptExecutor::start`
(source line 189): `Ordering::Relaxed`. -/
def start_cas_failure_ordering : MemOrdering := .relaxed

/-- Ordering of the `started.load` in `InterruptExecutor::spawner`
(source line 218): `Ordering::Acquire`. -/
def spawner_load_ordering : MemOrdering := .acquire

/-- `struct InterruptExecutor` (source lines 136-139): an atomic started
flag plus reserved, lazily written storage for the core
(`UnsafeCell<MaybeUninit<raw::Executor>>`; `none` models not-yet-written
storage). -/
structure InterruptExecutor where
  started : Bool
  executor : Option RawExecutor
deriving DecidableEq

/-- `InterruptExecutor::new` (source lines 147-152): not started, storage
reserved but not constructed. -/
def InterruptExecutor.new : InterruptExecutor := ⟨false, none⟩

/-- Observable effects of the interrupt-mode executor's operations. -/
inductive Event
  | claimFlag
  | constructCore (irq : Nat)
  | unmaskIrq (irq : Nat)
  | returnSpawner
  | pollPass
deriving DecidableEq

/-- The panic message of `InterruptExecutor::start` (source line 192). -/
def start_panic_msg : String :=
  "InterruptExecutor::start() called multiple times on the same executor."

/-- The panic message of `InterruptExecutor::spawner` (source line 219). -/
def spawner_panic_msg : String :=
  "InterruptExecutor::spawner() called on uninitialized executor."

/-- Result of `InterruptExecutor::start`: the executor state after the call,
the returned value (`Except.error` models the fatal panic), and the trace of
effects performed, in order. -/
structure StartOut where
  state : InterruptExecutor
  ret : Except String SendSpawner
  trace : List Event

/-- `InterruptExecutor::start` (source lines 186-208). In source order:
(1) `compare_exchange(false, true, Acquire, Relaxed)` on `started` — on
failure, panic with `start_panic_msg` having changed nothing; (2) write
`raw::Executor::new(Pender(PenderInner::Interrupt(InterruptPender(irq.number()))))`
into the storage; (3) `NVIC::unmask(irq)`; (4) return
`executor.spawner().make_send()`. `irq` stands for the `u16` value
`irq.number()` of the `impl InterruptNumber` argument. -/
def InterruptExecutor.start (s : InterruptExecutor) (irq : Nat) : StartOut :=
  match compareExchange s.started false true with
  | (_, .error _) =>
      { state := s
        ret := .error start_panic_msg
        trace := [] }
  | (flag, .ok _) =>
      let core := RawExecutor.new ⟨.interrupt ⟨irq⟩⟩
      { state := { started := flag, executor := some core }
        ret := .ok (core.spawner.make_send)
        trace := [.claimFlag, .constructCore irq, .unmaskIrq irq, .returnSpawner] }

/-- `InterruptExecutor::on_interrupt` (source lines 159-162): read the core
out of the storage with `assume_init_ref` and run `executor.poll()`. Calling
it while the storage was never written is undefined behavior, modelled as
`none`. Otherwise: one poll pass, nothing else touched. -/
def InterruptExecutor.on_interrupt (s : InterruptExecutor) :
    Option (InterruptExecutor × List Event) :=
  s.executor.map fun core => ({ s with executor := some core.poll }, [Event.pollPass])

/-- `InterruptExecutor::spawner` (source lines 217-223): if the acquire load
of `started` reads `false`, panic with `spawner_panic_msg` (modelled as
`Except.error`); otherwise read the core (`assume_init_ref`: undefined
behavior, `none`, if the storage was never written — unreachable when
`started` was set by `start`) and return `executor.spawner().make_send()`.
The state component records that the call stores nothing. -/
def InterruptExecutor.spawner (s : InterruptExecutor) :
    Option (InterruptExecutor × Except String SendSpawner) :=
  if s.started = false then
    some (s, .error spawner_panic_msg)
  else
    s.executor.map fun core => (s, .ok (core.spawner.make_send))

/-- The operations callable on a started-or-not `InterruptExecutor`. -/
inductive Op
  | startOp (irq : Nat)
  | spawnerOp
  | interruptOp
deriving DecidableEq

/-- State reached after one operation (panics and undefined behavior leave
the modelled state as the operation's semantics say: `start`'s failure path
and `spawner` never store; `on_interrupt` on unwritten storage is undefined
behavior, modelled as a stutter). -/
def step (s : InterruptExecutor) : Op → InterruptExecutor
  | .startOp irq => (s.start irq).state
  | .spawnerOp =>
      match s.spawner with
      | some (s2, _) => s2
      | none => s
  | .interruptOp =>
      match s.on_interrupt with
      | some (s2, _) => s2
      | none => s

/-- State reached after a sequence of operations. -/
def InterruptExecutor.runOps (s : InterruptExecutor) (l : List Op) : InterruptExecutor :=
  l.foldl step s

/-! ## Shared invariants -/

lemma step_preserves_started (s : InterruptExecutor) (op : Op)
    (h : s.started = true) : (step s op).started = true := by
  cases op with
  | startOp irq =>
      simp [step, InterruptExecutor.start, compareExchange, h]
  | spawnerOp =>
      cases hex : s.executor <;>
        simp [step, InterruptExecutor.spawner, h, hex]
  | interruptOp =>
      cases hex : s.executor <;>
        simp [step, InterruptExecutor.on_interrupt, h, hex]

lemma step_preserves_pender (s : InterruptExecutor) (op : Op)
    (h : s.started = true) :
    (step s op).executor.map (fun c => c.pender) = s.executor.map (fun c => c.pender) := by
  cases op with
  | startOp irq =>
      simp [step, InterruptExecutor.start, compareExchange, h]
  | spawnerOp =>
      cases hex : s.executor <;>
        simp [step, InterruptExecutor.spawner, h, hex]
  | interruptOp =>
      cases hex : s.executor <;>
        simp [step, InterruptExecutor.on_interrupt, h, hex, RawExecutor.poll]

lemma runOps_preserves (s : InterruptExecutor) (ops : List Op)
    (h : s.started = true) :
    (s.runOps ops).started = true ∧
    (s.runOps ops).executor.map (fun c => c.pender) = s.executor.map (fun c => c.pender) := by
  induction ops generalizing s with
  | nil => exact ⟨h, rfl⟩
  | cons op rest ih =>
      have h1 := step_preserves_started s op h
      have h2 := step_preserves_pender s op h
      have h3 := ih (step s op) h1
      exact ⟨h3.1, h3.2.trans h2⟩

lemma start_on_unstarted (s : InterruptExecutor) (irq : Nat) (h : s.started = false) :
    s.start irq =
      { state := ⟨true, some (RawExecutor.new ⟨.interrupt ⟨irq⟩⟩)⟩,
        ret := .ok (SendSpawner.mk ⟨.interrupt ⟨irq⟩⟩),
        trace := [.claimFlag, .constructCore irq, .unmaskIrq irq, .returnSpawner] } := by
  simp [InterruptExecutor.start, compareExchange, h, RawExecutor.new,
    RawExecutor.spawner, Spawner.make_send]

lemma start_on_started (s : InterruptExecutor) (irq : Nat) (h : s.started = true) :
    s.start irq = { state := s, ret := .error start_panic_msg, trace := [] } := by
  simp [InterruptExecutor.start, compareExchange, h]

lemma runTrace_shape (ex : Executor) (n : Nat) :
    (∃ t, ex.runTrace n = RunEvent.callInit ex.inner.spawner :: t) ∧
    (ex.runTrace n).count (RunEvent.callInit ex.inner.spawner) = 1 ∧
    (ex.runTrace n).length = 1 + 2 * n := by
  have h0 : (Executor.loopBody).count (RunEvent.callInit ex.inner.spawner) = 0 :=
    List.count_eq_zero.mpr (by simp [Executor.loopBody])
  induction n with
  | zero =>
      exact ⟨⟨[], rfl⟩, by simp [Executor.runTrace], by simp [Executor.runTrace]⟩
  | succ n ih =>
      obtain ⟨⟨t, ht⟩, hc, hl⟩ := ih
      refine ⟨⟨t ++ Executor.loopBody, by rw [Executor.runTrace, ht]; rfl⟩, ?_, ?_⟩
      · rw [Executor.runTrace, List.count_append, hc, h0]
      · rw [Executor.runTrace, List.length_append, hl]
        simp [Executor.loopBody]
        ring

/-- Claim C1: on a not-yet-started executor, `InterruptExecutor::start(irq)`
performs, in this order: claim the Uninitialized-to-Started transition on the
atomic flag, construct the scheduler core in the reserved storage bound to a
Targeted pender carrying `irq`'s number, unmask `irq` at the NVIC, and return
a cross-context submission handle for that core; in particular the core
construction strictly precedes the unmask in the trace. -/
theorem C1_start_effect_order (s : InterruptExecutor) (irq : Nat)
    (h : s.started = false) :
    (s.start irq).trace =
      [Event.claimFlag, Event.constructCore irq, Event.unmaskIrq irq, Event.returnSpawner] ∧
    (s.start irq).state =
      ⟨true, some (RawExecutor.new ⟨PenderInner.interrupt ⟨irq⟩⟩)⟩ ∧
    (s.start irq).ret = Except.ok (SendSpawner.mk ⟨PenderInner.interrupt ⟨irq⟩⟩) ∧
    (∃ l₁ l₂ l₃, (s.start irq).trace =
      l₁ ++ Event.constructCore irq :: l₂ ++ Event.unmaskIrq irq :: l₃) := by
  refine ⟨?_, ?_, ?_, [Event.claimFlag], [], [Event.returnSpawner], ?_⟩ <;>
    simp [InterruptExecutor.start, compareExchange, h, RawExecutor.new,
      RawExecutor.spawner, Spawner.make_send]

/-- Witness for C1 at a fresh executor and interrupt number 3. -/
theorem C1_start_effect_order_witness :
    (InterruptExecutor.new.start 3).trace =
      [Event.claimFlag, Event.constructCore 3, Event.unmaskIrq 3, Event.returnSpawner] ∧
    (InterruptExecutor.new.start 3).state =
      ⟨true, some (RawExecutor.new ⟨PenderInner.interrupt ⟨3⟩⟩)⟩ ∧
    (InterruptExecutor.new.start 3).ret =
      Except.ok (SendSpawner.mk ⟨PenderInner.interrupt ⟨3⟩⟩) ∧
    (∃ l₁ l₂ l₃, (InterruptExecutor.new.start 3).trace =
      l₁ ++ Event.constructCore 3 :: l₂ ++ Event.unmaskIrq 3 :: l₃) :=
  C1_start_effect_order InterruptExecutor.new 3 rfl

/-- Claim C2: `Executor::run` calls `init` exactly once, with the submission
handle scoped to this executor, before any poll pass (it is the head of the
trace); each loop iteration appends one poll pass followed by the low-power
wait call; the loop never terminates (every fuel level extends the trace by
exactly one further iteration, so the trace grows without bound and `run`
never returns). -/
theorem C2_run_init_once_loop_forever (ex : Executor) (n : Nat) :
    (ex.runTrace n).head? = some (RunEvent.callInit ex.inner.spawner) ∧
    (ex.runTrace n).count (RunEvent.callInit ex.inner.spawner) = 1 ∧
    ex.runTrace (n + 1) =
      ex.runTrace n ++ [RunEvent.poll, RunEvent.waitCall Executor.waitMechanism] ∧
    (ex.runTrace n).length = 1 + 2 * n := by
  obtain ⟨⟨t, ht⟩, hc, hl⟩ := runTrace_shape ex n
  exact ⟨by rw [ht]; rfl, hc, rfl, hl⟩

/-- Claim C3: the first `start` on a fresh `InterruptExecutor` succeeds
(returns a handle) and leaves the executor started; every subsequent `start`
on the same instance — after any further sequence of operations — aborts
fatally with the duplicate-start diagnostic, the later caller observing the
flag already claimed. -/
theorem C3_start_exactly_once (irq irq2 : Nat) (ops : List Op) :
    (InterruptExecutor.new.start irq).ret.isOk = true ∧
    (InterruptExecutor.new.start irq).state.started = true ∧
    (((InterruptExecutor.new.start irq).state.runOps ops).start irq2).ret =
      Except.error start_panic_msg := by
  have hstate : (InterruptExecutor.new.start irq).state.started = true := by
    rw [start_on_unstarted InterruptExecutor.new irq rfl]
  have h2 := (runOps_preserves _ ops hstate).1
  refine ⟨?_, hstate, ?_⟩
  · rw [start_on_unstarted InterruptExecutor.new irq rfl]
    rfl
  · rw [start_on_started _ irq2 h2]

/-- Claim C4: `spawner()` aborts fatally exactly when called before `start`
has completed (so it always aborts on a fresh, never-started executor), and
once `start` has completed it returns the same cross-context handle that
`start` returned. -/
theorem C4_spawner_gate (s : InterruptExecutor) (irq : Nat) :
    InterruptExecutor.new.spawner =
      some (InterruptExecutor.new, Except.error spawner_panic_msg) ∧
    ((∃ e, s.spawner = some (s, Except.error e)) ↔ s.started = false) ∧
    (s.started = false →
      (s.start irq).state.spawner = some ((s.start irq).state, (s.start irq).ret)) := by
  refine ⟨rfl, ⟨?_, ?_⟩, ?_⟩
  · rintro ⟨e, he⟩
    cases hst : s.started
    · rfl
    · exfalso
      cases hex : s.executor <;>
        simp [InterruptExecutor.spawner, hst, hex] at he
  · intro h
    exact ⟨spawner_panic_msg, by simp [InterruptExecutor.spawner, h]⟩
  · intro h
    simp [InterruptExecutor.start, compareExchange, h, InterruptExecutor.spawner]

/-- Witness for C4 at a fresh executor and interrupt number 5. -/
theorem C4_spawner_gate_witness :
    InterruptExecutor.new.spawner =
      some (InterruptExecutor.new, Except.error spawner_panic_msg) ∧
    ((∃ e, InterruptExecutor.new.spawner = some (InterruptExecutor.new, Except.error e)) ↔
      InterruptExecutor.new.started = false) ∧
    (InterruptExecutor.new.start 5).state.spawner =
      some ((InterruptExecutor.new.start 5).state, (InterruptExecutor.new.start 5).ret) := by
  obtain ⟨h1, h2, h3⟩ := C4_spawner_gate InterruptExecutor.new 5
  exact ⟨h1, h2, h3 rfl⟩

/-- Counterexample to claim C5: the low-power wait in `Executor::run`'s loop
is not the `wfe` instruction; the concrete trace of `Executor::new().run`
after one iteration shows the wait is the SoftDevice call
`sd_app_evt_wait()` (source line 72). -/
theorem C5_wait_not_wfe_counterexample :
    Executor.waitMechanism ≠ WaitMechanism.wfe ∧
    Executor.new.runTrace 1 =
      [RunEvent.callInit (Spawner.mk ⟨PenderInner.thread ⟨⟩⟩), RunEvent.poll,
        RunEvent.waitCall WaitMechanism.softdeviceWait] := by
  exact ⟨by decide, by decide⟩

/-- Claim C5 as amended: the low-power wait entered after each poll pass of
`Executor::run` is a call to the SoftDevice function `sd_app_evt_wait`, not
a direct `wfe` instruction; the wake half remains the global signal-event
instruction `sev` executed by the Broadcast pender. -/
theorem C5_wait_is_softdevice_call (ex : Executor) (n : Nat) (t : ThreadPender) :
    Executor.waitMechanism = WaitMechanism.softdeviceWait ∧
    ex.runTrace (n + 1) =
      ex.runTrace n ++ [RunEvent.poll, RunEvent.waitCall WaitMechanism.softdeviceWait] ∧
    t.pend = [Instr.sev] :=
  ⟨rfl, rfl, rfl⟩

/-- Counterexample to claim C6: the exchange guarding the
Uninitialized-to-Started transition is not an acquire/release exchange — it
carries no release semantics at all: its success ordering is `Acquire` and
its failure ordering `Relaxed` (source line 189). -/
theorem C6_no_release_counterexample :
    start_cas_success_ordering = MemOrdering.acquire ∧
    start_cas_failure_ordering = MemOrdering.relaxed ∧
    start_cas_success_ordering.hasRelease = false ∧
    start_cas_failure_ordering.hasRelease = false ∧
    start_cas_success_ordering ≠ MemOrdering.acqRel := by
  decide

/-- Claim C6 as amended: the Uninitialized-to-Started transition is guarded
by a single atomic flag — `start` succeeds exactly when the flag was unset —
via a compare-exchange whose success ordering is acquire and whose failure
ordering is relaxed, and `spawner` gates on an acquire load of the same
flag; no release ordering appears in `start`, so the construction write is
not ordered before the flag update by the exchange itself. -/
theorem C6_atomic_guard_orderings (s : InterruptExecutor) (irq : Nat) :
    ((s.start irq).ret.isOk = true ↔ s.started = false) ∧
    start_cas_success_ordering = MemOrdering.acquire ∧
    start_cas_failure_ordering = MemOrdering.relaxed ∧
    start_cas_success_ordering.hasRelease = false ∧
    spawner_load_ordering = MemOrdering.acquire := by
  refine ⟨?_, rfl, rfl, rfl, rfl⟩
  cases hst : s.started
  · rw [start_on_unstarted s irq hst]
    simp [Except.isOk, Except.toBool]
  · rw [start_on_started s irq hst]
    simp [Except.isOk, Except.toBool]

/-- Claim C7: `pend()` on the Broadcast (thread) pender carries no state (the
type has a single value), consists of executing exactly the one global
signal-event instruction `sev`, returns no value and cannot fail; and the
thread-mode executor is constructed with exactly this pender variant. -/
theorem C7_broadcast_pend_sev (a b : ThreadPender) :
    a.pend = [Instr.sev] ∧ a = b ∧
    Executor.new.inner.pender = ⟨PenderInner.thread a⟩ := by
  cases a
  cases b
  exact ⟨rfl, rfl, rfl⟩

/-- Claim C8: `pend()` on a Targeted pender performs exactly one NVIC
operation, and that operation software-sets the pending bit of exactly the
line whose number the pender carries (on both the armv6m and the armv7+
compile paths); moreover the number stored in a started executor's pender is
the one fixed by `start` and is unchanged by every later operation. -/
theorem C8_targeted_pend_line (armv6m : Bool) (p : InterruptPender)
    (s : InterruptExecutor) (irq : Nat) (ops : List Op) (h : s.started = false) :
    (p.pend armv6m).length = 1 ∧
    (p.pend armv6m).filterMap NvicOp.pendedLine = [p.number] ∧
    ((s.start irq).state.runOps ops).executor.map (fun c => c.pender) =
      some ⟨PenderInner.interrupt ⟨irq⟩⟩ := by
  refine ⟨?_, ?_, ?_⟩
  · cases armv6m <;> rfl
  · cases armv6m <;> simp [InterruptPender.pend, NvicOp.pendedLine]
  · have hstate : (s.start irq).state =
        ⟨true, some (RawExecutor.new ⟨.interrupt ⟨irq⟩⟩)⟩ :=
      congrArg StartOut.state (start_on_unstarted s irq h)
    rw [hstate, (runOps_preserves _ ops rfl).2]
    rfl

/-- Witness for C8 on the armv6m path, pender number 7, a fresh executor
started on line 4 and two subsequent operations. -/
theorem C8_targeted_pend_line_witness :
    ((InterruptPender.mk 7).pend true).length = 1 ∧
    ((InterruptPender.mk 7).pend true).filterMap NvicOp.pendedLine = [7] ∧
    ((InterruptExecutor.new.start 4).state.runOps
        [Op.interruptOp, Op.spawnerOp]).executor.map (fun c => c.pender) =
      some ⟨PenderInner.interrupt ⟨4⟩⟩ :=
  C8_targeted_pend_line true ⟨7⟩ InterruptExecutor.new 4 [Op.interruptOp, Op.spawnerOp] rfl

/-- Claim C9: on a started executor, `on_interrupt` performs exactly one poll
pass of the core and changes nothing else (same flag, same pender, pass
counter advanced by one); `spawner` performs no mutation at all (it returns
the state it was given); and after `start`, the flag and the constructed
pender are read-only for every later operation sequence. -/
theorem C9_poll_reads_only (s : InterruptExecutor) (core : RawExecutor) (ops : List Op)
    (h : s.executor = some core) (hst : s.started = true) :
    s.on_interrupt =
      some (⟨s.started, some ⟨core.pender, core.polls + 1⟩⟩, [Event.pollPass]) ∧
    s.spawner = some (s, Except.ok (SendSpawner.mk core.pender)) ∧
    (s.runOps ops).started = s.started ∧
    (s.runOps ops).executor.map (fun c => c.pender) = some core.pender := by
  refine ⟨?_, ?_, ?_, ?_⟩
  · simp [InterruptExecutor.on_interrupt, h, RawExecutor.poll]
  · simp [InterruptExecutor.spawner, hst, h, RawExecutor.spawner, Spawner.make_send]
  · rw [(runOps_preserves s ops hst).1, hst]
  · rw [(runOps_preserves s ops hst).2, h]
    rfl

/-- Witness for C9 on an executor started with line 2, one subsequent
`spawner` call. -/
theorem C9_poll_reads_only_witness :
    (⟨true, some (RawExecutor.new ⟨PenderInner.interrupt ⟨2⟩⟩)⟩ :
        InterruptExecutor).on_interrupt =
      some (⟨true, some ⟨⟨PenderInner.interrupt ⟨2⟩⟩, 1⟩⟩, [Event.pollPass]) ∧
    (⟨true, some (RawExecutor.new ⟨PenderInner.interrupt ⟨2⟩⟩)⟩ :
        InterruptExecutor).spawner =
      some (⟨true, some (RawExecutor.new ⟨PenderInner.interrupt ⟨2⟩⟩)⟩,
        Except.ok (SendSpawner.mk ⟨PenderInner.interrupt ⟨2⟩⟩)) ∧
    ((⟨true, some (RawExecutor.new ⟨PenderInner.interrupt ⟨2⟩⟩)⟩ :
        InterruptExecutor).runOps [Op.spawnerOp]).started = true ∧
    ((⟨true, some (RawExecutor.new ⟨PenderInner.interrupt ⟨2⟩⟩)⟩ :
        InterruptExecutor).runOps [Op.spawnerOp]).executor.map (fun c => c.pender) =
      some ⟨PenderInner.interrupt ⟨2⟩⟩ :=
  C9_poll_reads_only ⟨true, some (RawExecutor.new ⟨PenderInner.interrupt ⟨2⟩⟩)⟩
    (RawExecutor.new ⟨PenderInner.interrupt ⟨2⟩⟩) [Op.spawnerOp] rfl rfl

/-- Claim C10: the fatal-abort paths preserve state. When `start` aborts
because the executor was already started, it leaves the state exactly as it
was and performs no effect at all (no flag change, no core write, no unmask);
when `spawner` aborts because the executor was never started, it returns the
state unchanged. -/
theorem C10_abort_paths_preserve (s : InterruptExecutor) (irq : Nat) :
    (s.started = true →
      (s.start irq).state = s ∧
      (s.start irq).trace = [] ∧
      (s.start irq).ret = Except.error start_panic_msg) ∧
    (s.started = false →
      s.spawner = some (s, Except.error spawner_panic_msg)) := by
  constructor
  · intro h
    rw [start_on_started s irq h]
    exact ⟨rfl, rfl, rfl⟩
  · intro h
    simp [InterruptExecutor.spawner, h]

/-- Witness for C10: a started executor on line 9 for the duplicate-start
path, and a fresh executor for the early-spawner path. -/
theorem C10_abort_paths_preserve_witness :
    (((⟨true, some (RawExecutor.new ⟨PenderInner.interrupt ⟨9⟩⟩)⟩ :
          InterruptExecutor).start 9).state =
        ⟨true, some (RawExecutor.new ⟨PenderInner.interrupt ⟨9⟩⟩)⟩ ∧
      ((⟨true, some (RawExecutor.new ⟨PenderInner.interrupt ⟨9⟩⟩)⟩ :
          InterruptExecutor).start 9).trace = [] ∧
      ((⟨true, some (RawExecutor.new ⟨PenderInner.interrupt ⟨9⟩⟩)⟩ :
          InterruptExecutor).start 9).ret = Except.error start_panic_msg) ∧
    InterruptExecutor.new.spawner =
      some (InterruptExecutor.new, Except.error spawner_panic_msg) :=
  ⟨(C10_abort_paths_preserve
      ⟨true, some (RawExecutor.new ⟨PenderInner.interrupt ⟨9⟩⟩)⟩ 9).1 rfl,
    (C10_abort_paths_preserve InterruptExecutor.new 9).2 rfl⟩

end EmbassyCortexM
